import Mathlib

/-!
Verification of the go-core-stack/auth repository: an HMAC-SHA256 request
signing and validation scheme for HTTP requests.

The embedding models, from the source:
- the hash package: GenerateSHA256HMAC / generateSHA256HMAC (HMAC-SHA256 of
  concatenated string fields, hex encoded), generator.AddAuthHeaders,
  validator.Validate, NewGenerator, NewValidator;
- the Go standard library pieces those functions call: crypto/sha256,
  crypto/hmac, encoding/hex, net/http header Add/Get, and the RFC 3339
  formatting and parsing done by time.Format / time.Parse / Time.Unix.

Machine integers are modelled as Nat with explicit reduction mod 2^32 where
the Go code works on uint32, and bytes as Nat values < 256.  The wall clock
is passed explicitly: Go's time.Now().Unix() becomes an explicit argument
(the signer takes it as a Nat of epoch seconds — time.Now() on a real system
is after 1970 — and the time zone of the clock is modelled as UTC, so the
signer emits a trailing Z; the validator's clock is an Int, matching int64).
-/

namespace Auth

/-! ### Bytes and strings (Go `[]byte(s)` is the UTF-8 encoding) -/

/-- UTF-8 encoding of a single character, as byte values. -/
def utf8Bytes (c : Char) : List Nat :=
  let n := c.toNat
  if n < 128 then [n]
  else if n < 2048 then [192 + n / 64, 128 + n % 64]
  else if n < 65536 then [224 + n / 4096, 128 + (n / 64) % 64, 128 + n % 64]
  else [240 + n / 262144, 128 + (n / 4096) % 64, 128 + (n / 64) % 64, 128 + n % 64]

/-- The bytes of a Go string: UTF-8 encoding of its characters. -/
def strBytes (s : String) : List Nat :=
  s.data.flatMap utf8Bytes

/-! ### encoding/hex -/

/-- Lowercase hex digit for a value below 16 (encoding/hex uses the
    alphabet 0123456789abcdef). -/
def hexDigit (n : Nat) : Char :=
  Char.ofNat (if n < 10 then 48 + n else 87 + n)

/-- hex.EncodeToString: two lowercase hex digits per byte. -/
def hexEncodeBytes (bs : List Nat) : String :=
  ⟨bs.flatMap (fun b => [hexDigit (b / 16), hexDigit (b % 16)])⟩

/-- hex digit value; encoding/hex fromHexChar accepts 0-9, a-f and A-F. -/
def fromHexChar (c : Char) : Option Nat :=
  if 48 ≤ c.toNat ∧ c.toNat ≤ 57 then some (c.toNat - 48)
  else if 97 ≤ c.toNat ∧ c.toNat ≤ 102 then some (c.toNat - 87)
  else if 65 ≤ c.toNat ∧ c.toNat ≤ 70 then some (c.toNat - 55)
  else none

/-- hex.DecodeString on the character list: pairs of hex digits; an odd
    length or a non-hex character is an error (modelled as none). -/
def hexDecodeList : List Char → Option (List Nat)
  | [] => some []
  | [_] => none
  | c1 :: c2 :: rest =>
    match fromHexChar c1, fromHexChar c2, hexDecodeList rest with
    | some hi, some lo, some bs => some ((16 * hi + lo) :: bs)
    | _, _, _ => none

/-- hex.DecodeString. -/
def hexDecode (s : String) : Option (List Nat) :=
  hexDecodeList s.data

/-! ### crypto/sha256 (FIPS 180-4, as implemented by the Go runtime) -/

/-- reduce to a 32-bit word -/
def w32 (n : Nat) : Nat := n % 4294967296

/-- right rotation of a 32-bit word -/
def rotr32 (n x : Nat) : Nat := ((x >>> n) ||| (x <<< (32 - n))) % 4294967296

def sha256K : List Nat :=
  [1116352408, 1899447441, 3049323471, 3921009573, 961987163,
   1508970993, 2453635748, 2870763221, 3624381080, 310598401,
   607225278, 1426881987, 1925078388, 2162078206, 2614888103,
   3248222580, 3835390401, 4022224774, 264347078, 604807628,
   770255983, 1249150122, 1555081692, 1996064986, 2554220882,
   2821834349, 2952996808, 3210313671, 3336571891, 3584528711,
   113926993, 338241895, 666307205, 773529912, 1294757372,
   1396182291, 1695183700, 1986661051, 2177026350, 2456956037,
   2730485921, 2820302411, 3259730800, 3345764771, 3516065817,
   3600352804, 4094571909, 275423344, 430227734, 506948616,
   659060556, 883997877, 958139571, 1322822218, 1537002063,
   1747873779, 1955562222, 2024104815, 2227730452, 2361852424,
   2428436474, 2756734187, 3204031479, 3329325298]

structure Sha256State where
  a : Nat
  b : Nat
  c : Nat
  d : Nat
  e : Nat
  f : Nat
  g : Nat
  h : Nat
deriving DecidableEq

def sha256Init : Sha256State :=
  ⟨1779033703, 3144134277, 1013904242, 2773480762, 1359893119, 2600822924, 528734635, 1541459225⟩

/-- one round of the SHA-256 compression function -/
def sha256Round (st : Sha256State) (kw : Nat × Nat) : Sha256State :=
  let s1 := (rotr32 6 st.e) ^^^ (rotr32 11 st.e) ^^^ (rotr32 25 st.e)
  let ch := (st.e &&& st.f) ^^^ ((st.e ^^^ 4294967295) &&& st.g)
  let t1 := w32 (st.h + s1 + ch + kw.1 + kw.2)
  let s0 := (rotr32 2 st.a) ^^^ (rotr32 13 st.a) ^^^ (rotr32 22 st.a)
  let mj := (st.a &&& st.b) ^^^ (st.a &&& st.c) ^^^ (st.b &&& st.c)
  let t2 := w32 (s0 + mj)
  ⟨w32 (t1 + t2), st.a, st.b, st.c, w32 (st.d + t1), st.e, st.f, st.g⟩

/-- extend the 16 message words of a block to 64, running k extension steps -/
def sha256Extend : Nat → List Nat → List Nat
  | 0, w => w
  | k+1, w =>
    let n := w.length
    let w15 := w.getD (n - 15) 0
    let w2 := w.getD (n - 2) 0
    let s0 := (rotr32 7 w15) ^^^ (rotr32 18 w15) ^^^ (w15 >>> 3)
    let s1 := (rotr32 17 w2) ^^^ (rotr32 19 w2) ^^^ (w2 >>> 10)
    sha256Extend k (w ++ [w32 (w.getD (n - 16) 0 + s0 + w.getD (n - 7) 0 + s1)])

def sha256Compress (hs : Sha256State) (block : List Nat) : Sha256State :=
  let w := sha256Extend 48 block
  let st := (w.zip sha256K).foldl sha256Round hs
  ⟨w32 (hs.a + st.a), w32 (hs.b + st.b), w32 (hs.c + st.c), w32 (hs.d + st.d),
   w32 (hs.e + st.e), w32 (hs.f + st.f), w32 (hs.g + st.g), w32 (hs.h + st.h)⟩

/-- split a word list into 16-word blocks (a padded message is always a
    multiple of 16 words) -/
def toBlocks : List Nat → List (List Nat)
  | a1 :: a2 :: a3 :: a4 :: a5 :: a6 :: a7 :: a8 :: a9 :: a10 :: a11 :: a12 :: a13 :: a14 :: a15 :: a16 :: rest =>
    [a1, a2, a3, a4, a5, a6, a7, a8, a9, a10, a11, a12, a13, a14, a15, a16] :: toBlocks rest
  | _ => []

/-- big-endian 64-bit message length, as 8 bytes -/
def be64 (n : Nat) : List Nat :=
  [(n / 72057594037927936) % 256, (n / 281474976710656) % 256, (n / 1099511627776) % 256,
   (n / 4294967296) % 256, (n / 16777216) % 256, (n / 65536) % 256, (n / 256) % 256, n % 256]

/-- SHA-256 padding: 0x80, zeros to 56 mod 64, then the bit length. -/
def sha256Pad (m : List Nat) : List Nat :=
  m ++ 128 :: List.replicate ((119 - m.length % 64) % 64) 0 ++ be64 (8 * m.length)

/-- group bytes into big-endian 32-bit words -/
def bytesToWords : List Nat → List Nat
  | a :: b :: c :: d :: rest => (((a * 256 + b) * 256 + c) * 256 + d) :: bytesToWords rest
  | _ => []

/-- serialize the state as 32 bytes, big-endian per word (byte(x >> k)
    truncates, hence the mod 256) -/
def stateBytes (st : Sha256State) : List Nat :=
  [(st.a / 16777216) % 256, (st.a / 65536) % 256, (st.a / 256) % 256, st.a % 256,
   (st.b / 16777216) % 256, (st.b / 65536) % 256, (st.b / 256) % 256, st.b % 256,
   (st.c / 16777216) % 256, (st.c / 65536) % 256, (st.c / 256) % 256, st.c % 256,
   (st.d / 16777216) % 256, (st.d / 65536) % 256, (st.d / 256) % 256, st.d % 256,
   (st.e / 16777216) % 256, (st.e / 65536) % 256, (st.e / 256) % 256, st.e % 256,
   (st.f / 16777216) % 256, (st.f / 65536) % 256, (st.f / 256) % 256, st.f % 256,
   (st.g / 16777216) % 256, (st.g / 65536) % 256, (st.g / 256) % 256, st.g % 256,
   (st.h / 16777216) % 256, (st.h / 65536) % 256, (st.h / 256) % 256, st.h % 256]

/-- SHA-256 of a byte sequence. -/
def sha256 (m : List Nat) : List Nat :=
  stateBytes ((toBlocks (bytesToWords (sha256Pad m))).foldl sha256Compress sha256Init)

/-! ### crypto/hmac -/

/-- HMAC-SHA256 (crypto/hmac with sha256.New: block size 64; a key longer
    than the block is first hashed, then zero-padded). -/
def hmacSha256 (key msg : List Nat) : List Nat :=
  let k0 := if key.length > 64 then sha256 key else key
  let k := k0 ++ List.replicate (64 - k0.length) 0
  sha256 ((k.map (fun b => b ^^^ 92)) ++ sha256 ((k.map (fun b => b ^^^ 54)) ++ msg))

/-- crypto/hmac Equal: equality of the two byte slices (the Go function is
    a constant-time comparison; extensionally it decides equality). -/
def hmacEqual (a b : List Nat) : Bool :=
  a == b

/-! ### hash package: HMAC generation

generateSHA256HMAC concatenates the variadic fields with strings.Join(v, "")
and returns the raw HMAC bytes; GenerateSHA256HMAC hex-encodes them. -/

/-- generateSHA256HMAC (raw bytes), from the hash package. -/
def generateSHA256HMAC (secret : String) (v : List String) : List Nat :=
  hmacSha256 (strBytes secret) (strBytes (String.join v))

/-- GenerateSHA256HMAC (hex string), from the hash package. -/
def GenerateSHA256HMAC (secret : String) (v : List String) : String :=
  hexEncodeBytes (generateSHA256HMAC secret v)

/-! ### time: proleptic-Gregorian civil-date arithmetic

Go's time.Format(RFC3339) and time.Parse(RFC3339) / Time.Unix convert
between epoch seconds and the civil date.  The conversion below works in a
frame shifted by 400 years (so all intermediate values are Nat: the shifted
year of epoch second 0 is 2370) and with march-based years (a year runs
from March 1, so the leap day is the last day of the year). -/

/-- month/day within a march-based year from its day number doy (0..365):
    returns (mp, d) with mp 0..11 (0 = March, 10 = January) and d 1-based. -/
def monthDayOfDoy (doy : Nat) : Nat × Nat :=
  let mp := (5*doy + 2) / 153
  (mp, doy - (153*mp + 2) / 5 + 1)

/-- day-of-era (0..146096) → (yearOfEra 0..399, dayOfYear 0..365) for
    march-based years: centuries of 36524 days (the last of an era has
    36525), quads of 1461 days (the last of a century has 1460, except in
    the last century), years of 365 days (the last of a quad has 366 when
    the quad is complete). -/
def yearDoyOfDoe (doe : Nat) : Nat × Nat :=
  let c := (doe - doe / 146096) / 36524
  let dc := doe - 36524*c
  let q := dc / 1461
  let dq := dc - 1461*q
  let y := (dq - dq / 1460) / 365
  (100*c + 4*q + y, dq - 365*y)

/-- inverse: day-of-era from year-of-era and day-of-year (march-based). -/
def doeOfYearDoy (yoe doy : Nat) : Nat :=
  365*yoe + yoe/4 - yoe/100 + doy

/-- decimal digit character -/
def decDigit (n : Nat) : Char :=
  Char.ofNat (48 + n)

/-- two-digit zero-padded decimal (all fields printed this way are < 100) -/
def pad2 (n : Nat) : String :=
  ⟨[decDigit (n / 10 % 10), decDigit (n % 10)]⟩

/-- four-digit zero-padded decimal (years of the model are < 10000) -/
def pad4 (n : Nat) : String :=
  ⟨[decDigit (n / 1000 % 10), decDigit (n / 100 % 10), decDigit (n / 10 % 10), decDigit (n % 10)]⟩

/-- the date-time layout of RFC 3339 with a Z designator, as the signer
    emits it -/
def formatDateTime (y m d hh mi ss : Nat) : String :=
  pad4 y ++ "-" ++ pad2 m ++ "-" ++ pad2 d ++ "T" ++
    pad2 hh ++ ":" ++ pad2 mi ++ ":" ++ pad2 ss ++ "Z"

/-- day number of epoch second t in the shifted frame: 74784816000 is the
    epoch of the frame (400 years and 719468 days before 1970-01-01). -/
def dtDays (t : Nat) : Nat :=
  (t + 74784816000) / 86400

/-- march-based month index of the date of epoch second t -/
def dtMp (t : Nat) : Nat :=
  (monthDayOfDoy (yearDoyOfDoe (dtDays t % 146097)).2).1

/-- calendar year of epoch second t -/
def dtYear (t : Nat) : Nat :=
  400 * (dtDays t / 146097) + (yearDoyOfDoe (dtDays t % 146097)).1 + (dtMp t + 2) / 12 - 400

/-- calendar month of epoch second t -/
def dtMonth (t : Nat) : Nat :=
  (dtMp t + 2) % 12 + 1

/-- day of month of epoch second t -/
def dtDay (t : Nat) : Nat :=
  (monthDayOfDoy (yearDoyOfDoe (dtDays t % 146097)).2).2

/-- time.Now().Format(time.RFC3339) for a clock in UTC at epoch second t:
    "YYYY-MM-DDThh:mm:ssZ". -/
def formatRFC3339 (t : Nat) : String :=
  formatDateTime (dtYear t) (dtMonth t) (dtDay t)
    ((t + 74784816000) % 86400 / 3600) ((t + 74784816000) % 86400 % 3600 / 60)
    ((t + 74784816000) % 86400 % 60)

/-- leap year (Gregorian rule, as Go's isLeap) -/
def isLeap (y : Nat) : Bool :=
  y % 4 == 0 && (y % 100 != 0 || y % 400 == 0)

/-- days in a month (Go's daysIn; m is 1..12 when used) -/
def daysInMonth (m y : Nat) : Nat :=
  if m = 2 then (if isLeap y then 29 else 28)
  else if m = 4 ∨ m = 6 ∨ m = 9 ∨ m = 11 then 30
  else 31

/-- value of a decimal digit character -/
def digitVal (c : Char) : Option Nat :=
  if 48 ≤ c.toNat ∧ c.toNat ≤ 57 then some (c.toNat - 48) else none

/-- two decimal digits -/
def digit2 (a b : Char) : Option Nat :=
  match digitVal a, digitVal b with
  | some x, some y => some (10*x + y)
  | _, _ => none

/-- four decimal digits -/
def digit4 (a b c d : Char) : Option Nat :=
  match digitVal a, digitVal b, digitVal c, digitVal d with
  | some x, some y, some z, some w => some (1000*x + 100*y + 10*z + w)
  | _, _, _, _ => none

/-- drop leading decimal digits -/
def skipDigits : List Char → List Char
  | c :: cs => if (digitVal c).isSome then skipDigits cs else c :: cs
  | [] => []

/-- optional fractional second: a period or comma followed by at least one
    digit (Go accepts both separators); Time.Unix ignores the fraction. -/
def dropFrac : List Char → Option (List Char)
  | '.' :: c :: cs => if (digitVal c).isSome then some (skipDigits cs) else none
  | ',' :: c :: cs => if (digitVal c).isSome then some (skipDigits cs) else none
  | '.' :: [] => none
  | ',' :: [] => none
  | cs => some cs

/-- time zone designator: Z, or a +hh:mm / -hh:mm offset; yields the
    offset in seconds.  Go's generic parser (the path taken whenever the
    strict RFC 3339 fast path fails) reads the two digit pairs with atoi
    and applies no range check to them, so offsets such as +25:00 or
    +00:99 are accepted; the model does the same. -/
def zoneOffset : List Char → Option Int
  | ['Z'] => some 0
  | s :: h1 :: h2 :: ':' :: m1 :: m2 :: [] =>
    match digit2 h1 h2, digit2 m1 m2 with
    | some hh, some mm =>
      if s = '+' then some (3600*(hh : Int) + 60*mm)
      else if s = '-' then some (-(3600*(hh : Int) + 60*mm))
      else none
    | _, _ => none
  | _ => none

/-- day-of-shifted-frame from a civil date with shifted year Y (= year+400,
    so Y ≥ 400 for any four-digit year), month 1..12, day d. -/
def daysShifted (Y m d : Nat) : Nat :=
  let yy := Y - (if m ≤ 2 then 1 else 0)
  let era := yy / 400
  let yoe := yy % 400
  era * 146097 + doeOfYearDoy yoe ((153 * ((m + 9) % 12) + 2) / 5 + d - 1)

/-- range checks, fraction, zone and epoch computation of the parser,
    applied once every date-time field has read its two (or four) digits -/
def parseRest (y mo d hh mi ss : Nat) (rest : List Char) : Option Int :=
  if 1 ≤ mo ∧ mo ≤ 12 ∧ 1 ≤ d ∧ d ≤ daysInMonth mo y ∧ hh ≤ 23 ∧ mi ≤ 59 ∧ ss ≤ 59 then
    match dropFrac rest with
    | some rest2 =>
      match zoneOffset rest2 with
      | some off =>
        some (86400 * (daysShifted (y + 400) mo d : Int) + 3600*hh + 60*mi + ss
          - 74784816000 - off)
      | none => none
    | none => none
  else none

/-- the hour field: Go's layout token for the 24-hour value is read with
    getnum in non-fixed mode, so one or two digits are accepted (the strict
    fast path wants two, but on its failure the generic parser accepts
    "T5:38:08Z"); the model accepts both widths too. -/
def parseHour : List Char → Option (Nat × List Char)
  | c1 :: c2 :: rest =>
    match digitVal c1, digitVal c2 with
    | some x, some y => some (10*x + y, rest)
    | some x, none => some (x, c2 :: rest)
    | none, _ => none
  | [c1] =>
    match digitVal c1 with
    | some x => some (x, [])
    | none => none
  | [] => none

/-- hour, minute and second reading of the parser (minute and second are
    fixed two-digit fields) -/
def parseHMS (y mo d : Nat) (rest : List Char) : Option Int :=
  match parseHour rest with
  | some (hh, ':' :: mi1 :: mi2 :: ':' :: s1 :: s2 :: rest2) =>
    match digit2 mi1 mi2, digit2 s1 s2 with
    | some mi, some ss => parseRest y mo d hh mi ss rest2
    | _, _ => none
  | _ => none

/-- date digit reading of the parser -/
def parseCore (y1 y2 y3 y4 m1 m2 d1 d2 : Char) (rest : List Char) : Option Int :=
  match digit4 y1 y2 y3 y4, digit2 m1 m2, digit2 d1 d2 with
  | some y, some mo, some d => parseHMS y mo d rest
  | _, _, _ => none

/-- time.Parse(time.RFC3339, s) followed by Time.Unix(): epoch seconds of a
    timestamp the parse accepts, none on any parse failure.  time.Parse
    first tries a strict fast path and, when that fails, falls back to the
    lenient generic parser, so the accepted language is the generic
    parser's: four-digit year, two-digit month and day, one- or two-digit
    hour, two-digit minute and second, optional period- or comma-led
    fraction, and a Z or sign-hh:mm zone whose digits are not range
    checked.  Field ranges checked are Go's: month 1..12, day
    1..daysIn(month, year), hour ≤ 23, minute and second ≤ 59. -/
def parseRFC3339 (s : String) : Option Int :=
  match s.data with
  | y1 :: y2 :: y3 :: y4 :: '-' :: m1 :: m2 :: '-' :: d1 :: d2 :: 'T' :: rest =>
    parseCore y1 y2 y3 y4 m1 m2 d1 d2 rest
  | _ => none

/-! ### net/http headers and requests

http.Header is a map from canonical keys to value slices; Header.Add
appends to the slice of the key and Header.Get returns the first value of
the slice (or "" when there is none).  All header keys used by this
repository are the same three literals, so the map is modelled as an
association list with at most one entry per key. -/

def Header : Type := List (String × List String)

instance : DecidableEq Header := by
  unfold Header
  infer_instance

/-- Header.Add: append the value to the entry of the key, creating the
    entry if need be. -/
def headerAdd (h : Header) (k v : String) : Header :=
  match h with
  | [] => [(k, [v])]
  | (k', vs) :: rest =>
    if k' = k then (k', vs ++ [v]) :: rest else (k', vs) :: headerAdd rest k v

/-- Header.Get: first value of the entry of the key, "" when absent. -/
def headerGet (h : Header) (k : String) : String :=
  match h with
  | [] => ""
  | (k', vs) :: rest => if k' = k then vs.headD "" else headerGet rest k

/-- Header.Values: the whole value slice of the key. -/
def headerValues (h : Header) (k : String) : List String :=
  match h with
  | [] => []
  | (k', vs) :: rest => if k' = k then vs else headerValues rest k

/-- number of keys, as len(r.Header) on the Go map -/
def headerLen (h : Header) : Nat :=
  h.length

/-- an *http.Request, restricted to what the hash package reads:
    r.Method, r.URL.Path and r.Header. -/
structure Request where
  method : String
  urlPath : String
  header : Header
deriving DecidableEq

/-! ### hash package: generator and validator -/

/-- the generator struct (API key id and secret) -/
structure generator where
  id : String
  secret : String

/-- NewGenerator -/
def NewGenerator (id secret : String) : generator :=
  ⟨id, secret⟩

/-- generator.AddAuthHeaders: format time.Now() as RFC 3339 once, sign
    method + path + timestamp, and Add the three headers.  It returns the
    (updated) request and has no error path. -/
def generator.AddAuthHeaders (g : generator) (now : Nat) (r : Request) : Request :=
  let timeStamp := formatRFC3339 now
  let sig := GenerateSHA256HMAC g.secret [r.method, r.urlPath, timeStamp]
  let h1 := headerAdd r.header "x-signature" sig
  let h2 := headerAdd h1 "x-api-key-id" g.id
  let h3 := headerAdd h2 "x-timestamp" timeStamp
  { r with header := h3 }

/-- the reasons validator.Validate can reject, one per return site -/
inductive AuthError where
  | missingRequiredHeaders
  | missingSignatureHeader
  | invalidSignatureFormat
  | missingTimestampHeader
  | errorParsingTimestamp
  | expiredAccess
  | invalidHmacSignature
deriving DecidableEq

/-- the validator struct (validity window in seconds, an int64) -/
structure validator where
  validity : Int

/-- NewValidator -/
def NewValidator (validity : Int) : validator :=
  ⟨validity⟩

/-- validator.Validate at wall-clock epoch second now (time.Now().Unix()):
    header-presence, signature decode, timestamp parse, expiry, HMAC
    comparison — in the order of the source. -/
def validator.Validate (v : validator) (now : Int) (r : Request) (secret : String) :
    Bool × Option AuthError :=
  if headerLen r.header = 0 then (false, some .missingRequiredHeaders)
  else
    let sigStr := headerGet r.header "x-signature"
    if sigStr = "" then (false, some .missingSignatureHeader)
    else
      match hexDecode sigStr with
      | none => (false, some .invalidSignatureFormat)
      | some sig =>
        let timeStr := headerGet r.header "x-timestamp"
        if timeStr = "" then (false, some .missingTimestampHeader)
        else
          match parseRFC3339 timeStr with
          | none => (false, some .errorParsingTimestamp)
          | some ts =>
            if now ≥ ts + v.validity then (false, some .expiredAccess)
            else if ¬ hmacEqual sig (generateSHA256HMAC secret [r.method, r.urlPath, timeStr]) then
              (false, some .invalidHmacSignature)
            else (true, none)

/-! ## Auxiliary lemmas -/

/-! ### Decimal digits and hex -/

theorem digitVal_decDigit : ∀ n < 10, digitVal (decDigit n) = some n := by decide

theorem fromHexChar_hexDigit : ∀ n < 16, fromHexChar (hexDigit n) = some n := by decide

/-- decoding inverts encoding on byte lists -/
theorem hexDecodeList_encode (bs : List Nat) (h : ∀ b ∈ bs, b < 256) :
    hexDecodeList (bs.flatMap (fun b => [hexDigit (b / 16), hexDigit (b % 16)])) = some bs := by
  induction bs with
  | nil => rfl
  | cons b t ih =>
    have hb : b < 256 := h b (List.mem_cons_self b t)
    have h1 : fromHexChar (hexDigit (b / 16)) = some (b / 16) :=
      fromHexChar_hexDigit (b / 16) (by omega)
    have h2 : fromHexChar (hexDigit (b % 16)) = some (b % 16) :=
      fromHexChar_hexDigit (b % 16) (by omega)
    have h3 : hexDecodeList (t.flatMap (fun b => [hexDigit (b / 16), hexDigit (b % 16)]))
        = some t := ih (fun x hx => h x (List.mem_cons_of_mem b hx))
    have hb16 : 16 * (b / 16) + b % 16 = b := by omega
    have key : hexDecodeList (hexDigit (b / 16) :: hexDigit (b % 16) ::
        t.flatMap (fun b => [hexDigit (b / 16), hexDigit (b % 16)])) = some (b :: t) := by
      show (match fromHexChar (hexDigit (b / 16)), fromHexChar (hexDigit (b % 16)),
          hexDecodeList (t.flatMap (fun b => [hexDigit (b / 16), hexDigit (b % 16)])) with
        | some hi, some lo, some bs => some ((16 * hi + lo) :: bs)
        | _, _, _ => none) = some (b :: t)
      rw [h1, h2, h3]
      show some ((16 * (b / 16) + b % 16) :: t) = some (b :: t)
      rw [hb16]
    exact key

theorem hexDecode_hexEncodeBytes (bs : List Nat) (h : ∀ b ∈ bs, b < 256) :
    hexDecode (hexEncodeBytes bs) = some bs :=
  hexDecodeList_encode bs h

/-! ### SHA-256 output shape -/

theorem stateBytes_lt (st : Sha256State) : ∀ b ∈ stateBytes st, b < 256 := by
  intro b hb
  unfold stateBytes at hb
  fin_cases hb <;> exact Nat.mod_lt _ (by norm_num)

theorem sha256_bytes_lt (m : List Nat) : ∀ b ∈ sha256 m, b < 256 :=
  stateBytes_lt _

theorem sha256_length (m : List Nat) : (sha256 m).length = 32 := rfl

theorem hmacSha256_bytes_lt (key msg : List Nat) : ∀ b ∈ hmacSha256 key msg, b < 256 :=
  sha256_bytes_lt _

theorem hmacSha256_length (key msg : List Nat) : (hmacSha256 key msg).length = 32 := rfl

theorem generateSHA256HMAC_lt (secret : String) (v : List String) :
    ∀ b ∈ generateSHA256HMAC secret v, b < 256 :=
  hmacSha256_bytes_lt _ _

/-- a hex encoding of a nonempty byte list is a nonempty string -/
theorem hexEncodeBytes_ne_empty (bs : List Nat) (h : bs ≠ []) : hexEncodeBytes bs ≠ "" := by
  cases bs with
  | nil => exact absurd rfl h
  | cons b t =>
    intro hc
    have : (hexEncodeBytes (b :: t)).data = ("" : String).data := by rw [hc]
    simp [hexEncodeBytes] at this

theorem generateSHA256HMAC_ne_nil (secret : String) (v : List String) :
    generateSHA256HMAC secret v ≠ [] := by
  intro hc
  have h32 : (generateSHA256HMAC secret v).length = 32 := rfl
  rw [hc] at h32
  simp at h32

theorem GenerateSHA256HMAC_ne_empty (secret : String) (v : List String) :
    GenerateSHA256HMAC secret v ≠ "" :=
  hexEncodeBytes_ne_empty _ (generateSHA256HMAC_ne_nil secret v)

/-- the decoded signature of a signed request: hex decode inverts the hex
    encoding the generator applied -/
theorem hexDecode_GenerateSHA256HMAC (secret : String) (v : List String) :
    hexDecode (GenerateSHA256HMAC secret v) = some (generateSHA256HMAC secret v) :=
  hexDecode_hexEncodeBytes _ (generateSHA256HMAC_lt secret v)

/-! ### Header operations -/

theorem headerAdd_ne_nil (h : Header) (k v : String) : headerAdd h k v ≠ [] := by
  cases h with
  | nil => simp [headerAdd]
  | cons e rest =>
    obtain ⟨k', vs⟩ := e
    unfold headerAdd
    split <;> simp

theorem headerLen_headerAdd_pos (h : Header) (k v : String) :
    headerLen (headerAdd h k v) ≠ 0 := by
  have := headerAdd_ne_nil h k v
  unfold headerLen
  cases hh : headerAdd h k v with
  | nil => exact absurd hh this
  | cons e rest => simp

/-- Get after Add of the same key, when the key had no values: the new value -/
theorem headerGet_headerAdd_self (h : Header) (k v : String)
    (hall : headerValues h k = []) : headerGet (headerAdd h k v) k = v := by
  induction h with
  | nil => simp [headerAdd, headerGet]
  | cons e rest ih =>
    obtain ⟨k', vs⟩ := e
    by_cases hk : k' = k
    · subst hk
      simp [headerValues] at hall
      simp [headerAdd, headerGet, hall]
    · simp [headerValues, hk] at hall
      simp [headerAdd, headerGet, hk, ih hall]

/-- Get after Add of a different key is unchanged -/
theorem headerGet_headerAdd_other (h : Header) (k' v k : String) (hne : k' ≠ k) :
    headerGet (headerAdd h k' v) k = headerGet h k := by
  induction h with
  | nil => simp only [headerAdd, headerGet, if_neg hne]
  | cons e rest ih =>
    obtain ⟨k'', vs⟩ := e
    by_cases hk : k'' = k'
    · subst hk
      simp [headerAdd, headerGet, hne]
    · simp [headerAdd, headerGet, hk, ih]

/-- Values after Add of the same key: the value is appended -/
theorem headerValues_headerAdd_self (h : Header) (k v : String) :
    headerValues (headerAdd h k v) k = headerValues h k ++ [v] := by
  induction h with
  | nil => simp [headerAdd, headerValues]
  | cons e rest ih =>
    obtain ⟨k', vs⟩ := e
    by_cases hk : k' = k
    · subst hk
      simp [headerAdd, headerValues]
    · simp [headerAdd, headerValues, hk, ih]

/-- Values after Add of a different key are unchanged -/
theorem headerValues_headerAdd_other (h : Header) (k' v k : String) (hne : k' ≠ k) :
    headerValues (headerAdd h k' v) k = headerValues h k := by
  induction h with
  | nil => simp only [headerAdd, headerValues, if_neg hne]
  | cons e rest ih =>
    obtain ⟨k'', vs⟩ := e
    by_cases hk : k'' = k'
    · subst hk
      simp [headerAdd, headerValues, Ne.symm hne, hne]
    · simp [headerAdd, headerValues, hk, ih]

/-- Get after Add of the same key, when the key already had a first value:
    Add appends at the end, so Get still returns the old first value -/
theorem headerGet_headerAdd_keeps_first (h : Header) (k v : String)
    (hne : headerGet h k ≠ "") : headerGet (headerAdd h k v) k = headerGet h k := by
  induction h with
  | nil => simp [headerGet] at hne
  | cons e rest ih =>
    obtain ⟨k', vs⟩ := e
    by_cases hk : k' = k
    · subst hk
      simp only [headerGet, if_pos rfl] at hne
      cases vs with
      | nil => simp at hne
      | cons v0 vt => simp [headerAdd, headerGet]
    · simp only [headerGet, if_neg hk] at hne
      simp [headerAdd, headerGet, hk, ih hne]

/-- a key whose Get is nonempty is present, so the header is nonempty -/
theorem header_ne_nil_of_headerGet (h : Header) (k : String) (hne : headerGet h k ≠ "") :
    headerLen h ≠ 0 := by
  cases h with
  | nil => simp [headerGet] at hne
  | cons e rest => simp [headerLen]

/-! ### Civil-date arithmetic -/

/-- facts about the month/day extraction from a day-of-year: bounds, the
    inverse sum, month lengths within the march-based year, and doy 365
    forcing February 29 -/
theorem monthDay_facts (doy : Nat) (h1 : doy ≤ 365) :
    let mp := (monthDayOfDoy doy).1
    let d := (monthDayOfDoy doy).2
    mp ≤ 11 ∧ 1 ≤ d ∧ d ≤ 31 ∧
    (153*mp + 2) / 5 + d - 1 = doy ∧ (153*mp + 2) / 5 ≤ doy ∧
    ((mp = 1 ∨ mp = 3 ∨ mp = 6 ∨ mp = 8) → d ≤ 30) ∧
    (mp = 11 → d ≤ 29) ∧
    (mp = 11 ∧ d = 29 → doy = 365) ∧
    ((mp + 2) / 12 = 1 → 306 ≤ doy) := by
  unfold monthDayOfDoy
  simp only []
  omega

/-- facts about the year extraction from a day-of-era: bounds, inversion,
    and the characterization of a 366-day year -/
theorem yearDoy_core (doe c dc q dq y : Nat) (h1 : doe < 146097)
    (hc : c = (doe - doe / 146096) / 36524)
    (hdc : dc = doe - 36524*c)
    (hq : q = dc / 1461)
    (hdq : dq = dc - 1461*q)
    (hy : y = (dq - dq / 1460) / 365) :
    c ≤ 3 ∧ q ≤ 24 ∧ y ≤ 3 ∧ dq - 365*y ≤ 365 ∧ 365*y ≤ dq ∧
    doeOfYearDoy (100*c + 4*q + y) (dq - 365*y) = doe ∧
    (dq - 365*y = 365 → y = 3 ∧ (q ≤ 23 ∨ (q = 24 ∧ c = 3))) := by
  have f1 : c ≤ 3 ∧ 36524*c ≤ doe ∧ doe ≤ 36524*c + 36524 ∧ (doe = 36524*c + 36524 → c = 3) := by
    subst hc; omega
  have f2 : c ≤ 3 ∧ dc ≤ 36524 ∧ doe = 36524*c + dc ∧ (dc = 36524 → c = 3) := by omega
  clear hc hdc f1 h1
  have f3 : q ≤ 24 ∧ dc = 1461*q + dq ∧ dq ≤ 1460 := by
    clear hy; subst hdq; subst hq; omega
  have f4 : 365*y ≤ dq ∧ dq - 365*y ≤ 365 ∧ y ≤ 3 ∧ (dq - 365*y = 365 → dq = 1460 ∧ y = 3) := by
    clear hq hdq; subst hy; omega
  clear hq hdq hy
  have hf : (100*c + 4*q + y) / 4 = 25*c + q := by omega
  have hg : (100*c + 4*q + y) / 100 = c := by omega
  unfold doeOfYearDoy
  rw [hf, hg]
  omega

/-- re-encoding a march-based month index through the calendar month and
    back is the identity -/
theorem month_reencode (mp : Nat) (h : mp ≤ 11) :
    ((mp + 2) % 12 + 1 + 9) % 12 = mp := by omega

/-! ### Printing and reparsing the RFC 3339 layout -/

theorem digit2_decDigit (n : Nat) (h : n < 100) :
    digit2 (decDigit (n / 10 % 10)) (decDigit (n % 10)) = some n := by
  unfold digit2
  rw [digitVal_decDigit _ (by omega), digitVal_decDigit _ (by omega)]
  exact congrArg some (by omega)

theorem digit4_decDigit (n : Nat) (h : n < 10000) :
    digit4 (decDigit (n / 1000 % 10)) (decDigit (n / 100 % 10))
      (decDigit (n / 10 % 10)) (decDigit (n % 10)) = some n := by
  unfold digit4
  rw [digitVal_decDigit _ (by omega), digitVal_decDigit _ (by omega),
    digitVal_decDigit _ (by omega), digitVal_decDigit _ (by omega)]
  exact congrArg some (by omega)

/-- the characters of the formatted layout -/
theorem formatDateTime_data (y m d hh mi ss : Nat) :
    (formatDateTime y m d hh mi ss).data =
      decDigit (y / 1000 % 10) :: decDigit (y / 100 % 10) :: decDigit (y / 10 % 10) ::
      decDigit (y % 10) :: '-' :: decDigit (m / 10 % 10) :: decDigit (m % 10) ::
      '-' :: decDigit (d / 10 % 10) :: decDigit (d % 10) :: 'T' ::
      decDigit (hh / 10 % 10) :: decDigit (hh % 10) :: ':' :: decDigit (mi / 10 % 10) ::
      decDigit (mi % 10) :: ':' :: decDigit (ss / 10 % 10) :: decDigit (ss % 10) :: ['Z'] := by
  simp [formatDateTime, pad4, pad2, String.data_append]

theorem parseHour_decDigit (n : Nat) (h : n < 100) (rest : List Char) :
    parseHour (decDigit (n / 10 % 10) :: decDigit (n % 10) :: rest) = some (n, rest) := by
  simp only [parseHour]
  rw [digitVal_decDigit _ (by omega), digitVal_decDigit _ (by omega)]
  show some (10 * (n / 10 % 10) + n % 10, rest) = some (n, rest)
  rw [show 10 * (n / 10 % 10) + n % 10 = n from by omega]

theorem parseHMS_decDigit (y mo d hh mi ss : Nat) (hh2 : hh < 100) (hmi : mi < 100)
    (hss : ss < 100) (rest : List Char) :
    parseHMS y mo d (decDigit (hh / 10 % 10) :: decDigit (hh % 10) :: ':' ::
      decDigit (mi / 10 % 10) :: decDigit (mi % 10) :: ':' ::
      decDigit (ss / 10 % 10) :: decDigit (ss % 10) :: rest) =
      parseRest y mo d hh mi ss rest := by
  unfold parseHMS
  rw [parseHour_decDigit hh hh2]
  show (match digit2 (decDigit (mi / 10 % 10)) (decDigit (mi % 10)),
      digit2 (decDigit (ss / 10 % 10)) (decDigit (ss % 10)) with
    | some mi, some ss => parseRest y mo d hh mi ss rest
    | _, _ => none) = parseRest y mo d hh mi ss rest
  rw [digit2_decDigit mi hmi, digit2_decDigit ss hss]

theorem parseCore_decDigit (y mo d : Nat) (hy : y < 10000) (hmo : mo < 100) (hd : d < 100)
    (rest : List Char) :
    parseCore (decDigit (y / 1000 % 10)) (decDigit (y / 100 % 10)) (decDigit (y / 10 % 10))
      (decDigit (y % 10)) (decDigit (mo / 10 % 10)) (decDigit (mo % 10))
      (decDigit (d / 10 % 10)) (decDigit (d % 10)) rest = parseHMS y mo d rest := by
  unfold parseCore
  rw [digit4_decDigit y hy, digit2_decDigit mo hmo, digit2_decDigit d hd]

theorem parseRFC3339_formatDateTime (y m d hh mi ss : Nat) (hy : y < 10000)
    (hm : m ≤ 12) (hd : d ≤ 31) (hh2 : hh ≤ 23) (hmi : mi ≤ 59) (hss : ss ≤ 59)
    (hcond : 1 ≤ m ∧ m ≤ 12 ∧ 1 ≤ d ∧ d ≤ daysInMonth m y ∧ hh ≤ 23 ∧ mi ≤ 59 ∧ ss ≤ 59) :
    parseRFC3339 (formatDateTime y m d hh mi ss) =
      some (86400 * (daysShifted (y + 400) m d : Int) + 3600*hh + 60*mi + ss
        - 74784816000) := by
  have h1 : parseRFC3339 (formatDateTime y m d hh mi ss) =
      parseCore (decDigit (y / 1000 % 10)) (decDigit (y / 100 % 10)) (decDigit (y / 10 % 10))
        (decDigit (y % 10)) (decDigit (m / 10 % 10)) (decDigit (m % 10))
        (decDigit (d / 10 % 10)) (decDigit (d % 10))
        (decDigit (hh / 10 % 10) :: decDigit (hh % 10) :: ':' ::
          decDigit (mi / 10 % 10) :: decDigit (mi % 10) :: ':' ::
          decDigit (ss / 10 % 10) :: decDigit (ss % 10) :: ['Z']) := by
    unfold parseRFC3339
    rw [formatDateTime_data]
    rfl
  rw [h1, parseCore_decDigit y m d hy (by omega) (by omega),
    parseHMS_decDigit y m d hh mi ss (by omega) (by omega) (by omega)]
  unfold parseRest
  rw [if_pos hcond]
  show some (86400 * (daysShifted (y + 400) m d : Int) + 3600*hh + 60*mi + ss
    - 74784816000 - 0) = _
  congr 1
  omega

/-- packaged year/doy extraction facts, with the 366-day-year condition in
    modulus form -/
theorem yearDoyOfDoe_facts (doe : Nat) (h1 : doe < 146097) :
    (yearDoyOfDoe doe).1 ≤ 399 ∧ (yearDoyOfDoe doe).2 ≤ 365 ∧
    doeOfYearDoy (yearDoyOfDoe doe).1 (yearDoyOfDoe doe).2 = doe ∧
    ((yearDoyOfDoe doe).2 = 365 → ((yearDoyOfDoe doe).1 + 1) % 4 = 0 ∧
      (((yearDoyOfDoe doe).1 + 1) % 100 ≠ 0 ∨ ((yearDoyOfDoe doe).1 + 1) % 400 = 0)) := by
  have hcore := yearDoy_core doe _ _ _ _ _ h1 rfl rfl rfl rfl rfl
  have hfst : (yearDoyOfDoe doe).1 =
      100*((doe - doe / 146096) / 36524) +
      4*((doe - 36524*((doe - doe / 146096) / 36524)) / 1461) +
      (doe - 36524*((doe - doe / 146096) / 36524) -
        1461*((doe - 36524*((doe - doe / 146096) / 36524)) / 1461) -
        (doe - 36524*((doe - doe / 146096) / 36524) -
          1461*((doe - 36524*((doe - doe / 146096) / 36524)) / 1461)) / 1460) / 365 := rfl
  have hsnd : (yearDoyOfDoe doe).2 =
      doe - 36524*((doe - doe / 146096) / 36524) -
      1461*((doe - 36524*((doe - doe / 146096) / 36524)) / 1461) -
      365*((doe - 36524*((doe - doe / 146096) / 36524) -
        1461*((doe - 36524*((doe - doe / 146096) / 36524)) / 1461) -
        (doe - 36524*((doe - doe / 146096) / 36524) -
          1461*((doe - 36524*((doe - doe / 146096) / 36524)) / 1461)) / 1460) / 365) := rfl
  rw [hfst, hsnd]
  obtain ⟨hc3, hq24, hy3, hdoy, hyl, hinv, hleap⟩ := hcore
  refine ⟨by omega, by omega, hinv, ?_⟩
  intro h365
  obtain ⟨hy3', hqc⟩ := hleap h365
  rcases hqc with hq | ⟨hq, hc⟩ <;> omega

theorem isLeap_iff (y : Nat) :
    isLeap y = true ↔ (y % 4 = 0 ∧ (y % 100 ≠ 0 ∨ y % 400 = 0)) := by
  unfold isLeap
  simp [Bool.and_eq_true, Bool.or_eq_true, beq_iff_eq, bne_iff_ne]

/-- the printed year stays below 10000 for clocks before the year 10000 -/
theorem year_lt_10000 (t sd era yoe doy mp y : Nat) (ht : t < 253402300800)
    (hsd : (t + 74784816000) / 86400 = sd)
    (hera : sd / 146097 = era)
    (hinv : 365*yoe + yoe/4 - yoe/100 + doy = sd % 146097)
    (hyoe399 : yoe ≤ 399) (hdoy365 : doy ≤ 365) (hmp11 : mp ≤ 11)
    (h306 : (mp + 2) / 12 = 1 → 306 ≤ doy)
    (hy : 400 * era + yoe + (mp + 2) / 12 - 400 = y) :
    y < 10000 := by
  have hsd_le : sd ≤ 3798461 := by omega
  rcases Nat.lt_or_ge era 25 with h | h
  · omega
  · have h25 : era = 25 := by omega
    rcases Nat.lt_or_ge (yoe + (mp + 2) / 12) 400 with h' | h'
    · omega
    · have h399 : yoe = 399 := by omega
      have hadj1 : (mp + 2) / 12 = 1 := by omega
      have h306' := h306 hadj1
      omega

/-- the printed day passes the parser's day-of-month bound -/
theorem day_le_daysInMonth (era yoe doy mp dd m y : Nat) (hera5 : 5 ≤ era)
    (hyoe399 : yoe ≤ 399) (hmp11 : mp ≤ 11) (hdd31 : dd ≤ 31)
    (h30 : (mp = 1 ∨ mp = 3 ∨ mp = 6 ∨ mp = 8) → dd ≤ 30)
    (h29 : mp = 11 → dd ≤ 29)
    (h365 : mp = 11 ∧ dd = 29 → doy = 365)
    (hleap : doy = 365 → (yoe + 1) % 4 = 0 ∧ ((yoe + 1) % 100 ≠ 0 ∨ (yoe + 1) % 400 = 0))
    (hm : (mp + 2) % 12 + 1 = m)
    (hy : 400 * era + yoe + (mp + 2) / 12 - 400 = y) :
    dd ≤ daysInMonth m y := by
  unfold daysInMonth
  split_ifs with h2 hlp h46
  · exact h29 (by omega)
  · have hmp11' : mp = 11 := by omega
    rcases Nat.lt_or_ge dd 29 with h | h
    · omega
    · exfalso
      have hdd29 : dd = 29 := by omega
      have hdoy' : doy = 365 := h365 ⟨hmp11', hdd29⟩
      have hmod := hleap hdoy'
      rw [isLeap_iff] at hlp
      push_neg at hlp
      omega
  · exact h30 (by omega)
  · omega

/-- the parser's day computation inverts the printer's date extraction -/
theorem daysShifted_inverse (era yoe doy mp dd m y sd : Nat) (hera5 : 5 ≤ era)
    (hyoe399 : yoe ≤ 399) (hmp11 : mp ≤ 11)
    (hrecon : (153*mp + 2) / 5 + dd - 1 = doy)
    (hrle : (153*mp + 2) / 5 ≤ doy)
    (_hdd1 : 1 ≤ dd)
    (hinv : 365*yoe + yoe/4 - yoe/100 + doy = sd % 146097)
    (hera : sd / 146097 = era)
    (hm : (mp + 2) % 12 + 1 = m)
    (hy : 400 * era + yoe + (mp + 2) / 12 - 400 = y) :
    daysShifted (y + 400) m dd = sd := by
  unfold daysShifted doeOfYearDoy
  have hif : (if m ≤ 2 then 1 else 0) = (mp + 2) / 12 := by
    split_ifs <;> omega
  rw [hif]
  have hdividend : y + 400 - (mp + 2) / 12 = 400 * era + yoe := by omega
  rw [hdividend]
  show (400 * era + yoe) / 400 * 146097 + (365 * ((400 * era + yoe) % 400) +
    ((400 * era + yoe) % 400) / 4 - ((400 * era + yoe) % 400) / 100 +
    ((153 * ((m + 9) % 12) + 2) / 5 + dd - 1)) = sd
  have hdiv : (400 * era + yoe) / 400 = era := by omega
  have hmod2 : (400 * era + yoe) % 400 = yoe := by omega
  rw [hdiv, hmod2]
  have hre : (m + 9) % 12 = mp := by omega
  rw [hre]
  omega

/-- parsing what the signer formatted recovers the epoch second, for every
    clock value before the year 10000 -/
theorem parseRFC3339_formatRFC3339 (t : Nat) (ht : t < 253402300800) :
    parseRFC3339 (formatRFC3339 t) = some (t : Int) := by
  obtain ⟨sd, hsd⟩ : ∃ x, dtDays t = x := ⟨_, rfl⟩
  obtain ⟨era, hera⟩ : ∃ x, sd / 146097 = x := ⟨_, rfl⟩
  obtain ⟨doe, hdoe⟩ : ∃ x, sd % 146097 = x := ⟨_, rfl⟩
  obtain ⟨yoe, hyoe⟩ : ∃ x, (yearDoyOfDoe doe).1 = x := ⟨_, rfl⟩
  obtain ⟨doy, hdoy⟩ : ∃ x, (yearDoyOfDoe doe).2 = x := ⟨_, rfl⟩
  obtain ⟨mp, hmp⟩ : ∃ x, (monthDayOfDoy doy).1 = x := ⟨_, rfl⟩
  obtain ⟨dd, hdd⟩ : ∃ x, (monthDayOfDoy doy).2 = x := ⟨_, rfl⟩
  obtain ⟨rem, hrem⟩ : ∃ x, (t + 74784816000) % 86400 = x := ⟨_, rfl⟩
  have hsd_def : (t + 74784816000) / 86400 = sd := hsd
  have hmp_eq : dtMp t = mp := by
    unfold dtMp
    rw [hsd, hdoe, hdoy, hmp]
  have hy_eq : dtYear t = 400 * era + yoe + (mp + 2) / 12 - 400 := by
    unfold dtYear
    rw [hsd, hera, hdoe, hyoe, hmp_eq]
  have hm_eq : dtMonth t = (mp + 2) % 12 + 1 := by
    unfold dtMonth
    rw [hmp_eq]
  have hd_eq : dtDay t = dd := by
    unfold dtDay
    rw [hsd, hdoe, hdoy, hdd]
  obtain ⟨y, hy⟩ : ∃ x, 400 * era + yoe + (mp + 2) / 12 - 400 = x := ⟨_, rfl⟩
  obtain ⟨m, hm⟩ : ∃ x, (mp + 2) % 12 + 1 = x := ⟨_, rfl⟩
  rw [hy] at hy_eq
  rw [hm] at hm_eq
  have hdoe_lt : doe < 146097 := by omega
  have hyd := yearDoyOfDoe_facts doe hdoe_lt
  rw [hyoe, hdoy] at hyd
  obtain ⟨hyoe399, hdoy365, hinv, hleap⟩ := hyd
  have hmd := monthDay_facts doy hdoy365
  rw [hmp, hdd] at hmd
  obtain ⟨hmp11, hdd1, hdd31, hrecon, hrle, h30, h29, h365, h306⟩ := hmd
  unfold doeOfYearDoy at hinv
  have hinv' : 365*yoe + yoe/4 - yoe/100 + doy = sd % 146097 := by rw [hdoe]; exact hinv
  have hera5 : 5 ≤ era := by omega
  have hy_lt : y < 10000 :=
    year_lt_10000 t sd era yoe doy mp y ht hsd_def hera hinv' hyoe399 hdoy365 hmp11 h306 hy
  have hm12 : 1 ≤ m ∧ m ≤ 12 := by omega
  have hdim : dd ≤ daysInMonth m y :=
    day_le_daysInMonth era yoe doy mp dd m y hera5 hyoe399 hmp11 hdd31 h30 h29 h365 hleap hm hy
  have hds : daysShifted (y + 400) m dd = sd :=
    daysShifted_inverse era yoe doy mp dd m y sd hera5 hyoe399 hmp11 hrecon hrle hdd1
      hinv' hera hm hy
  unfold formatRFC3339
  rw [hy_eq, hm_eq, hd_eq, hrem]
  rw [parseRFC3339_formatDateTime y m dd (rem / 3600) (rem % 3600 / 60) (rem % 60)
    hy_lt hm12.2 (by omega) (by omega) (by omega) (by omega)
    ⟨hm12.1, hm12.2, hdd1, hdim, by omega, by omega, by omega⟩]
  rw [hds]
  refine congrArg some ?_
  omega

/-! ### Outcome of validator.Validate under each condition -/

theorem Validate_missingHeaders (v : validator) (now : Int) (r : Request) (secret : String)
    (h0 : headerLen r.header = 0) :
    validator.Validate v now r secret = (false, some .missingRequiredHeaders) := by
  simp only [validator.Validate, h0, if_true]

theorem Validate_missingSignature (v : validator) (now : Int) (r : Request) (secret : String)
    (h0 : headerLen r.header ≠ 0)
    (h1 : headerGet r.header "x-signature" = "") :
    validator.Validate v now r secret = (false, some .missingSignatureHeader) := by
  simp only [validator.Validate, h0, h1, if_false, if_true, ite_true, ite_false]

theorem Validate_invalidSignatureFormat (v : validator) (now : Int) (r : Request)
    (secret : String)
    (h0 : headerLen r.header ≠ 0)
    (h1 : headerGet r.header "x-signature" ≠ "")
    (h2 : hexDecode (headerGet r.header "x-signature") = none) :
    validator.Validate v now r secret = (false, some .invalidSignatureFormat) := by
  simp only [validator.Validate, h0, h1, h2, if_false, ite_true, ite_false]

theorem Validate_missingTimestamp (v : validator) (now : Int) (r : Request) (secret : String)
    (sig : List Nat)
    (h0 : headerLen r.header ≠ 0)
    (h1 : headerGet r.header "x-signature" ≠ "")
    (h2 : hexDecode (headerGet r.header "x-signature") = some sig)
    (h3 : headerGet r.header "x-timestamp" = "") :
    validator.Validate v now r secret = (false, some .missingTimestampHeader) := by
  simp only [validator.Validate, h0, h1, h2, h3, if_false, ite_true, ite_false]

theorem Validate_invalidTimestamp (v : validator) (now : Int) (r : Request) (secret : String)
    (sig : List Nat)
    (h0 : headerLen r.header ≠ 0)
    (h1 : headerGet r.header "x-signature" ≠ "")
    (h2 : hexDecode (headerGet r.header "x-signature") = some sig)
    (h3 : headerGet r.header "x-timestamp" ≠ "")
    (h4 : parseRFC3339 (headerGet r.header "x-timestamp") = none) :
    validator.Validate v now r secret = (false, some .errorParsingTimestamp) := by
  simp only [validator.Validate, h0, h1, h2, h3, h4, if_false, ite_true, ite_false]

theorem Validate_expired (v : validator) (now : Int) (r : Request) (secret : String)
    (sig : List Nat) (ts : Int)
    (h0 : headerLen r.header ≠ 0)
    (h1 : headerGet r.header "x-signature" ≠ "")
    (h2 : hexDecode (headerGet r.header "x-signature") = some sig)
    (h3 : headerGet r.header "x-timestamp" ≠ "")
    (h4 : parseRFC3339 (headerGet r.header "x-timestamp") = some ts)
    (h5 : now ≥ ts + v.validity) :
    validator.Validate v now r secret = (false, some .expiredAccess) := by
  simp only [validator.Validate, h0, h1, h2, h3, h4, h5, if_false, ite_true, ite_false]

theorem Validate_hmacMismatch (v : validator) (now : Int) (r : Request) (secret : String)
    (sig : List Nat) (ts : Int)
    (h0 : headerLen r.header ≠ 0)
    (h1 : headerGet r.header "x-signature" ≠ "")
    (h2 : hexDecode (headerGet r.header "x-signature") = some sig)
    (h3 : headerGet r.header "x-timestamp" ≠ "")
    (h4 : parseRFC3339 (headerGet r.header "x-timestamp") = some ts)
    (h5 : ¬ now ≥ ts + v.validity)
    (h6 : ¬ hmacEqual sig (generateSHA256HMAC secret
      [r.method, r.urlPath, headerGet r.header "x-timestamp"])) :
    validator.Validate v now r secret = (false, some .invalidHmacSignature) := by
  simp only [validator.Validate, h0, h1, h2, h3, h4, h5, h6, if_false, ite_true, ite_false,
    not_false_eq_true]
  simp

theorem Validate_accept (v : validator) (now : Int) (r : Request) (secret : String)
    (sig : List Nat) (ts : Int)
    (h0 : headerLen r.header ≠ 0)
    (h1 : headerGet r.header "x-signature" ≠ "")
    (h2 : hexDecode (headerGet r.header "x-signature") = some sig)
    (h3 : headerGet r.header "x-timestamp" ≠ "")
    (h4 : parseRFC3339 (headerGet r.header "x-timestamp") = some ts)
    (h5 : ¬ now ≥ ts + v.validity)
    (h6 : hmacEqual sig (generateSHA256HMAC secret
      [r.method, r.urlPath, headerGet r.header "x-timestamp"])) :
    validator.Validate v now r secret = (true, none) := by
  simp only [validator.Validate, h0, h1, h2, h3, h4, h5, h6, if_false, ite_true, ite_false,
    not_true_eq_false]

theorem hmacEqual_self (a : List Nat) : hmacEqual a a = true := by
  simp [hmacEqual]

theorem hmacEqual_iff (a b : List Nat) : hmacEqual a b = true ↔ a = b := by
  simp [hmacEqual]

theorem formatRFC3339_ne_empty (t : Nat) : formatRFC3339 t ≠ "" := by
  intro hc
  have hd := formatDateTime_data (dtYear t) (dtMonth t) (dtDay t)
    ((t + 74784816000) % 86400 / 3600) ((t + 74784816000) % 86400 % 3600 / 60)
    ((t + 74784816000) % 86400 % 60)
  rw [show formatDateTime (dtYear t) (dtMonth t) (dtDay t)
    ((t + 74784816000) % 86400 / 3600) ((t + 74784816000) % 86400 % 3600 / 60)
    ((t + 74784816000) % 86400 % 60) = formatRFC3339 t from rfl, hc] at hd
  simpa using congrArg List.length hd

theorem NewValidator_validity (x : Int) : (NewValidator x).validity = x := rfl

/-- what acceptance implies: every check passed -/
theorem validate_ok_elim (v : validator) (now : Int) (r : Request) (secret : String)
    (h : validator.Validate v now r secret = (true, none)) :
    headerLen r.header ≠ 0 ∧ headerGet r.header "x-signature" ≠ "" ∧
      ∃ sig, hexDecode (headerGet r.header "x-signature") = some sig ∧
        headerGet r.header "x-timestamp" ≠ "" ∧
        ∃ ts, parseRFC3339 (headerGet r.header "x-timestamp") = some ts ∧
          now < ts + v.validity ∧
          sig = generateSHA256HMAC secret
            [r.method, r.urlPath, headerGet r.header "x-timestamp"] := by
  by_cases h0 : headerLen r.header = 0
  · rw [Validate_missingHeaders v now r secret h0] at h
    simp at h
  by_cases h1 : headerGet r.header "x-signature" = ""
  · rw [Validate_missingSignature v now r secret h0 h1] at h
    simp at h
  rcases h2 : hexDecode (headerGet r.header "x-signature") with _ | sig
  · rw [Validate_invalidSignatureFormat v now r secret h0 h1 h2] at h
    simp at h
  by_cases h3 : headerGet r.header "x-timestamp" = ""
  · rw [Validate_missingTimestamp v now r secret sig h0 h1 h2 h3] at h
    simp at h
  rcases h4 : parseRFC3339 (headerGet r.header "x-timestamp") with _ | ts
  · rw [Validate_invalidTimestamp v now r secret sig h0 h1 h2 h3 h4] at h
    simp at h
  by_cases h5 : now ≥ ts + v.validity
  · rw [Validate_expired v now r secret sig ts h0 h1 h2 h3 h4 h5] at h
    simp at h
  by_cases h6 : hmacEqual sig (generateSHA256HMAC secret
      [r.method, r.urlPath, headerGet r.header "x-timestamp"]) = true
  · exact ⟨h0, h1, sig, rfl, h3, ts, rfl, by omega, (hmacEqual_iff _ _).mp h6⟩
  · rw [Validate_hmacMismatch v now r secret sig ts h0 h1 h2 h3 h4 h5 h6] at h
    simp at h

/-- what the checks imply: acceptance -/
theorem validate_ok_intro (v : validator) (now : Int) (r : Request) (secret : String)
    (h : headerLen r.header ≠ 0 ∧ headerGet r.header "x-signature" ≠ "" ∧
      ∃ sig, hexDecode (headerGet r.header "x-signature") = some sig ∧
        headerGet r.header "x-timestamp" ≠ "" ∧
        ∃ ts, parseRFC3339 (headerGet r.header "x-timestamp") = some ts ∧
          now < ts + v.validity ∧
          sig = generateSHA256HMAC secret
            [r.method, r.urlPath, headerGet r.header "x-timestamp"]) :
    validator.Validate v now r secret = (true, none) := by
  obtain ⟨h0, h1, sig, h2, h3, ts, h4, h5, h6⟩ := h
  exact Validate_accept v now r secret sig ts h0 h1 h2 h3 h4 (by omega)
    (by rw [hmacEqual_iff]; exact h6)

/-! ## The claims -/

/-- C1: Round-trip — for every secret, identifier, method and path, signing
    a request that does not already carry auth headers with AddAuthHeaders
    and then calling Validate on it with the same secret returns
    (true, nil), provided validation happens at a wall-clock time strictly
    less than the signing timestamp plus the configured validity window
    (validity at least 1 second; signing time within the RFC 3339
    four-digit-year range). -/
theorem C1_roundtrip (id secret method path : String) (hdr : Header) (t : Nat)
    (validity now : Int)
    (hsig0 : headerValues hdr "x-signature" = [])
    (hts0 : headerValues hdr "x-timestamp" = [])
    (ht : t < 253402300800)
    (_hval : 1 ≤ validity)
    (hnow : now < (t : Int) + validity) :
    validator.Validate (NewValidator validity) now
      (generator.AddAuthHeaders (NewGenerator id secret) t ⟨method, path, hdr⟩) secret
      = (true, none) := by
  have e2 : headerGet (generator.AddAuthHeaders (NewGenerator id secret) t
      ⟨method, path, hdr⟩).header "x-signature" =
      GenerateSHA256HMAC secret [method, path, formatRFC3339 t] := by
    show headerGet (headerAdd (headerAdd (headerAdd hdr "x-signature"
      (GenerateSHA256HMAC secret [method, path, formatRFC3339 t]))
      "x-api-key-id" id) "x-timestamp" (formatRFC3339 t)) "x-signature" = _
    rw [headerGet_headerAdd_other _ _ _ _ (by decide),
      headerGet_headerAdd_other _ _ _ _ (by decide),
      headerGet_headerAdd_self _ _ _ hsig0]
  have e3 : headerGet (generator.AddAuthHeaders (NewGenerator id secret) t
      ⟨method, path, hdr⟩).header "x-timestamp" = formatRFC3339 t := by
    show headerGet (headerAdd (headerAdd (headerAdd hdr "x-signature"
      (GenerateSHA256HMAC secret [method, path, formatRFC3339 t]))
      "x-api-key-id" id) "x-timestamp" (formatRFC3339 t)) "x-timestamp" = _
    rw [headerGet_headerAdd_self]
    rw [headerValues_headerAdd_other _ _ _ _ (by decide),
      headerValues_headerAdd_other _ _ _ _ (by decide)]
    exact hts0
  refine Validate_accept _ now _ secret
    (generateSHA256HMAC secret [method, path, formatRFC3339 t]) (t : Int) ?_ ?_ ?_ ?_ ?_ ?_ ?_
  · exact headerLen_headerAdd_pos _ _ _
  · rw [e2]
    exact GenerateSHA256HMAC_ne_empty secret _
  · rw [e2]
    exact hexDecode_GenerateSHA256HMAC secret _
  · rw [e3]
    exact formatRFC3339_ne_empty t
  · rw [e3]
    exact parseRFC3339_formatRFC3339 t ht
  · rw [NewValidator_validity]
    omega
  · rw [e3]
    exact hmacEqual_self _

/-- C1 witness: a concrete instantiation of the round-trip theorem -/
theorem C1_roundtrip_witness :
    validator.Validate (NewValidator 60) 1748410700
      (generator.AddAuthHeaders (NewGenerator "key1" "sec1") 1748410688
        ⟨"GET", "/res", []⟩) "sec1" = (true, none) :=
  C1_roundtrip "key1" "sec1" "GET" "/res" [] 1748410688 60 1748410700
    rfl rfl (by decide) (by decide) (by decide)

/-- C2: Acceptance iff all checks pass — Validate(r, secret) returns
    (true, nil) if and only if r has at least one header, the x-signature
    header is present and decodes as hex, the x-timestamp header is present
    and parses as RFC 3339, the current wall-clock time in seconds is
    strictly less than the parsed timestamp plus the validity window, and
    the decoded signature bytes equal HMAC-SHA256(secret, method plus path
    plus raw timestamp header string); in every other case it returns
    (false, err) where err is the reason of the first failing check, in the
    order: missing headers, missing signature, signature decode, missing
    timestamp, timestamp parse, expiry, HMAC comparison. -/
theorem C2_validate_characterization (v : validator) (now : Int) (r : Request)
    (secret : String) :
    (validator.Validate v now r secret = (true, none) ↔
      (headerLen r.header ≠ 0 ∧ headerGet r.header "x-signature" ≠ "" ∧
        ∃ sig, hexDecode (headerGet r.header "x-signature") = some sig ∧
          headerGet r.header "x-timestamp" ≠ "" ∧
          ∃ ts, parseRFC3339 (headerGet r.header "x-timestamp") = some ts ∧
            now < ts + v.validity ∧
            sig = generateSHA256HMAC secret
              [r.method, r.urlPath, headerGet r.header "x-timestamp"])) ∧
    (headerLen r.header = 0 →
      validator.Validate v now r secret = (false, some .missingRequiredHeaders)) ∧
    (headerLen r.header ≠ 0 → headerGet r.header "x-signature" = "" →
      validator.Validate v now r secret = (false, some .missingSignatureHeader)) ∧
    (headerLen r.header ≠ 0 → headerGet r.header "x-signature" ≠ "" →
      hexDecode (headerGet r.header "x-signature") = none →
      validator.Validate v now r secret = (false, some .invalidSignatureFormat)) ∧
    (∀ sig, headerLen r.header ≠ 0 → headerGet r.header "x-signature" ≠ "" →
      hexDecode (headerGet r.header "x-signature") = some sig →
      headerGet r.header "x-timestamp" = "" →
      validator.Validate v now r secret = (false, some .missingTimestampHeader)) ∧
    (∀ sig, headerLen r.header ≠ 0 → headerGet r.header "x-signature" ≠ "" →
      hexDecode (headerGet r.header "x-signature") = some sig →
      headerGet r.header "x-timestamp" ≠ "" →
      parseRFC3339 (headerGet r.header "x-timestamp") = none →
      validator.Validate v now r secret = (false, some .errorParsingTimestamp)) ∧
    (∀ sig ts, headerLen r.header ≠ 0 → headerGet r.header "x-signature" ≠ "" →
      hexDecode (headerGet r.header "x-signature") = some sig →
      headerGet r.header "x-timestamp" ≠ "" →
      parseRFC3339 (headerGet r.header "x-timestamp") = some ts →
      now ≥ ts + v.validity →
      validator.Validate v now r secret = (false, some .expiredAccess)) ∧
    (∀ sig ts, headerLen r.header ≠ 0 → headerGet r.header "x-signature" ≠ "" →
      hexDecode (headerGet r.header "x-signature") = some sig →
      headerGet r.header "x-timestamp" ≠ "" →
      parseRFC3339 (headerGet r.header "x-timestamp") = some ts →
      now < ts + v.validity →
      sig ≠ generateSHA256HMAC secret
        [r.method, r.urlPath, headerGet r.header "x-timestamp"] →
      validator.Validate v now r secret = (false, some .invalidHmacSignature)) := by
  refine ⟨?_, Validate_missingHeaders v now r secret,
    Validate_missingSignature v now r secret,
    Validate_invalidSignatureFormat v now r secret,
    fun sig h0 h1 h2 h3 => Validate_missingTimestamp v now r secret sig h0 h1 h2 h3,
    fun sig h0 h1 h2 h3 h4 => Validate_invalidTimestamp v now r secret sig h0 h1 h2 h3 h4,
    fun sig ts h0 h1 h2 h3 h4 h5 => Validate_expired v now r secret sig ts h0 h1 h2 h3 h4 h5,
    fun sig ts h0 h1 h2 h3 h4 h5 h6 => Validate_hmacMismatch v now r secret sig ts h0 h1 h2 h3
      h4 (by omega) (by rw [hmacEqual_iff]; exact h6)⟩
  exact ⟨validate_ok_elim v now r secret, validate_ok_intro v now r secret⟩

set_option maxRecDepth 100000 in
/-- C2 witness: the characterization instantiated at a concretely signed
    request, giving concrete acceptance -/
theorem C2_validate_characterization_witness :
    validator.Validate (NewValidator 60) 1748410690
      ⟨"GET", "/res", [("x-signature",
        ["e5b6e4692c1689a358ab922b7e78dcfeddab6417af7c0934ffae0a2b3b030293"]),
        ("x-timestamp", ["2025-05-28T05:38:08Z"])]⟩ "sec9" = (true, none) := by
  refine (C2_validate_characterization (NewValidator 60) 1748410690
    ⟨"GET", "/res", [("x-signature",
      ["e5b6e4692c1689a358ab922b7e78dcfeddab6417af7c0934ffae0a2b3b030293"]),
      ("x-timestamp", ["2025-05-28T05:38:08Z"])]⟩ "sec9").1.mpr ?_
  refine ⟨by decide, by decide,
    generateSHA256HMAC "sec9" ["GET", "/res", "2025-05-28T05:38:08Z"], ?_, by decide,
    1748410688, by decide, by decide, ?_⟩
  · show hexDecode "e5b6e4692c1689a358ab922b7e78dcfeddab6417af7c0934ffae0a2b3b030293"
      = some (generateSHA256HMAC "sec9" ["GET", "/res", "2025-05-28T05:38:08Z"])
    decide
  · rfl

set_option maxRecDepth 100000 in
/-- C3: Known-vector — GenerateSHA256HMAC with secret "mysupersecretcode"
    and fields ("POST", "/api/service1/v1/scope/abc/test/test1",
    "1748410688") produces exactly the hex digest
    2c269d572fbd6b324b5f6eb1cf06bed60811b43a82642d5f7f438b65160caa08, and
    therefore not the digest the second bundled test asserts for the same
    inputs (at most one of the two tests' expectations can hold). -/
theorem C3_known_vector :
    GenerateSHA256HMAC "mysupersecretcode"
      ["POST", "/api/service1/v1/scope/abc/test/test1", "1748410688"] =
      "2c269d572fbd6b324b5f6eb1cf06bed60811b43a82642d5f7f438b65160caa08" ∧
    GenerateSHA256HMAC "mysupersecretcode"
      ["POST", "/api/service1/v1/scope/abc/test/test1", "1748410688"] ≠
      "04a41d00f2f133c8746d11c7d3d5bfc547fc514b583e3798b1df2c9c09204461" := by
  constructor
  · decide
  · decide

/-- C4: Canonical signature input — both signer and validator compute the
    HMAC-SHA256 over exactly method ++ path ++ timestamp-string with no
    separator (path being the URL path component the Request model carries),
    and the validator feeds in the raw x-timestamp header string: the
    variadic HMAC is the HMAC of the concatenation, the signer's signature
    header value is the hex HMAC over method ++ path ++ the very timestamp
    string it transmits, and an accepted request's decoded signature equals
    the HMAC over method ++ path ++ the raw x-timestamp header value. -/
theorem C4_canonical_input (secret m p ts : String) (g : generator) (t : Nat) (r : Request)
    (v : validator) (now : Int) :
    generateSHA256HMAC secret [m, p, ts] =
      hmacSha256 (strBytes secret) (strBytes (m ++ p ++ ts)) ∧
    headerValues (generator.AddAuthHeaders g t r).header "x-signature" =
      headerValues r.header "x-signature" ++
        [hexEncodeBytes (hmacSha256 (strBytes g.secret)
          (strBytes (r.method ++ r.urlPath ++ formatRFC3339 t)))] ∧
    headerValues (generator.AddAuthHeaders g t r).header "x-timestamp" =
      headerValues r.header "x-timestamp" ++ [formatRFC3339 t] ∧
    (validator.Validate v now r secret = (true, none) →
      hexDecode (headerGet r.header "x-signature") =
        some (hmacSha256 (strBytes secret)
          (strBytes (r.method ++ r.urlPath ++ headerGet r.header "x-timestamp")))) := by
  refine ⟨rfl, ?_, ?_, ?_⟩
  · show headerValues (headerAdd (headerAdd (headerAdd r.header "x-signature"
      (GenerateSHA256HMAC g.secret [r.method, r.urlPath, formatRFC3339 t]))
      "x-api-key-id" g.id) "x-timestamp" (formatRFC3339 t)) "x-signature" = _
    rw [headerValues_headerAdd_other _ _ _ _ (by decide),
      headerValues_headerAdd_other _ _ _ _ (by decide),
      headerValues_headerAdd_self]
    rfl
  · show headerValues (headerAdd (headerAdd (headerAdd r.header "x-signature"
      (GenerateSHA256HMAC g.secret [r.method, r.urlPath, formatRFC3339 t]))
      "x-api-key-id" g.id) "x-timestamp" (formatRFC3339 t)) "x-timestamp" = _
    rw [headerValues_headerAdd_self,
      headerValues_headerAdd_other _ _ _ _ (by decide),
      headerValues_headerAdd_other _ _ _ _ (by decide)]
  · intro hacc
    obtain ⟨h0, h1, sig, h2, h3, ts', h4, h5, h6⟩ := validate_ok_elim v now r secret hacc
    rw [h2, h6]
    rfl

/-- C5: Window boundary — for every otherwise-valid request whose timestamp
    parses to epoch second T, validation at wall-clock second strictly less
    than T + validity accepts, and validation at any wall-clock second
    greater than or equal to T + validity rejects with the expired-signature
    reason (the rejection at exactly T + validity included). -/
theorem C5_window_boundary (v : validator) (now : Int) (r : Request) (secret : String)
    (sig : List Nat) (T : Int)
    (h1 : headerGet r.header "x-signature" ≠ "")
    (h2 : hexDecode (headerGet r.header "x-signature") = some sig)
    (h3 : headerGet r.header "x-timestamp" ≠ "")
    (h4 : parseRFC3339 (headerGet r.header "x-timestamp") = some T)
    (h6 : sig = generateSHA256HMAC secret
      [r.method, r.urlPath, headerGet r.header "x-timestamp"]) :
    (now < T + v.validity → validator.Validate v now r secret = (true, none)) ∧
    (now ≥ T + v.validity →
      validator.Validate v now r secret = (false, some .expiredAccess)) := by
  have h0 : headerLen r.header ≠ 0 := header_ne_nil_of_headerGet r.header "x-signature" h1
  constructor
  · intro hlt
    exact Validate_accept v now r secret sig T h0 h1 h2 h3 h4 (by omega)
      (by rw [hmacEqual_iff]; exact h6)
  · intro hge
    exact Validate_expired v now r secret sig T h0 h1 h2 h3 h4 hge

set_option maxRecDepth 100000 in
/-- C5 witness: the boundary behaviour at a concrete signed request; at
    exactly T + validity (now = 1748410688 + 60) the request is rejected -/
theorem C5_window_boundary_witness :
    (1748410748 < 1748410688 + (60 : Int) →
      validator.Validate (NewValidator 60) 1748410748
        ⟨"GET", "/res", [("x-signature",
          ["e5b6e4692c1689a358ab922b7e78dcfeddab6417af7c0934ffae0a2b3b030293"]),
          ("x-timestamp", ["2025-05-28T05:38:08Z"])]⟩ "sec9" = (true, none)) ∧
    (1748410748 ≥ 1748410688 + (60 : Int) →
      validator.Validate (NewValidator 60) 1748410748
        ⟨"GET", "/res", [("x-signature",
          ["e5b6e4692c1689a358ab922b7e78dcfeddab6417af7c0934ffae0a2b3b030293"]),
          ("x-timestamp", ["2025-05-28T05:38:08Z"])]⟩ "sec9"
        = (false, some .expiredAccess)) :=
  C5_window_boundary (NewValidator 60) 1748410748
    ⟨"GET", "/res", [("x-signature",
      ["e5b6e4692c1689a358ab922b7e78dcfeddab6417af7c0934ffae0a2b3b030293"]),
      ("x-timestamp", ["2025-05-28T05:38:08Z"])]⟩ "sec9"
    (generateSHA256HMAC "sec9" ["GET", "/res", "2025-05-28T05:38:08Z"]) 1748410688
    (by decide) (by decide) (by decide) (by decide) rfl

/-- C6: Future timestamps are never rejected by the window check — for
    every request whose x-timestamp parses to an epoch second strictly
    greater than the current wall-clock second, the expiry check passes
    (the outcome is never the expired-access rejection), and if all other
    checks pass the request is accepted; there is no not-yet-valid
    rejection. -/
theorem C6_future_accepted (v : validator) (now : Int) (r : Request) (secret : String)
    (T : Int)
    (h4 : parseRFC3339 (headerGet r.header "x-timestamp") = some T)
    (hfut : now < T) (hval : 0 ≤ v.validity) :
    validator.Validate v now r secret ≠ (false, some .expiredAccess) ∧
    (∀ sig, headerGet r.header "x-signature" ≠ "" →
      hexDecode (headerGet r.header "x-signature") = some sig →
      sig = generateSHA256HMAC secret
        [r.method, r.urlPath, headerGet r.header "x-timestamp"] →
      validator.Validate v now r secret = (true, none)) := by
  have h3 : headerGet r.header "x-timestamp" ≠ "" := by
    intro he
    rw [he] at h4
    exact Option.noConfusion h4
  constructor
  · by_cases h0 : headerLen r.header = 0
    · rw [Validate_missingHeaders v now r secret h0]
      simp
    by_cases h1 : headerGet r.header "x-signature" = ""
    · rw [Validate_missingSignature v now r secret h0 h1]
      simp
    rcases h2 : hexDecode (headerGet r.header "x-signature") with _ | sig
    · rw [Validate_invalidSignatureFormat v now r secret h0 h1 h2]
      simp
    by_cases h6 : hmacEqual sig (generateSHA256HMAC secret
        [r.method, r.urlPath, headerGet r.header "x-timestamp"]) = true
    · rw [Validate_accept v now r secret sig T h0 h1 h2 h3 h4 (by omega) h6]
      simp
    · rw [Validate_hmacMismatch v now r secret sig T h0 h1 h2 h3 h4 (by omega) h6]
      simp
  · intro sig h1 h2 h6
    have h0 : headerLen r.header ≠ 0 := header_ne_nil_of_headerGet r.header "x-signature" h1
    exact Validate_accept v now r secret sig T h0 h1 h2 h3 h4 (by omega)
      (by rw [hmacEqual_iff]; exact h6)

set_option maxRecDepth 100000 in
/-- C6 witness: a request stamped in the year 9999, validated at epoch
    second 0, is not rejected as expired and is accepted when the
    signature matches -/
theorem C6_future_accepted_witness :
    (validator.Validate (NewValidator 60) 0
      ⟨"GET", "/res", [("x-signature",
        ["15e1468d929a5620127058fb816ddc5ccf4d7fada97996b2d5d759ce4890dbec"]),
        ("x-timestamp", ["9999-01-01T00:00:00Z"])]⟩ "sec9"
      ≠ (false, some .expiredAccess)) ∧
    (∀ sig, headerGet ([("x-signature",
        ["15e1468d929a5620127058fb816ddc5ccf4d7fada97996b2d5d759ce4890dbec"]),
        ("x-timestamp", ["9999-01-01T00:00:00Z"])] : Header) "x-signature" ≠ "" →
      hexDecode (headerGet ([("x-signature",
        ["15e1468d929a5620127058fb816ddc5ccf4d7fada97996b2d5d759ce4890dbec"]),
        ("x-timestamp", ["9999-01-01T00:00:00Z"])] : Header) "x-signature") = some sig →
      sig = generateSHA256HMAC "sec9" ["GET", "/res", "9999-01-01T00:00:00Z"] →
      validator.Validate (NewValidator 60) 0
        ⟨"GET", "/res", [("x-signature",
          ["15e1468d929a5620127058fb816ddc5ccf4d7fada97996b2d5d759ce4890dbec"]),
          ("x-timestamp", ["9999-01-01T00:00:00Z"])]⟩ "sec9" = (true, none)) :=
  C6_future_accepted (NewValidator 60) 0
    ⟨"GET", "/res", [("x-signature",
      ["15e1468d929a5620127058fb816ddc5ccf4d7fada97996b2d5d759ce4890dbec"]),
      ("x-timestamp", ["9999-01-01T00:00:00Z"])]⟩ "sec9" 253370764800
    (by decide) (by decide) (by decide)

/-- C7 counterexample: a request with one header, a non-hex x-signature
    value and no x-timestamp header is rejected with the signature-decode
    reason, not the missing-timestamp reason the claim requires; so the
    presence check for x-timestamp does not precede signature decoding. -/
theorem C7_counterexample :
    validator.Validate (NewValidator 60) 0
      ⟨"GET", "/x", [("x-signature", ["zz"])]⟩ "s"
      = (false, some .invalidSignatureFormat) ∧
    (some AuthError.invalidSignatureFormat ≠ some AuthError.missingTimestampHeader) := by
  constructor
  · decide
  · decide

/-- C7 (amended): for every request that has at least one header but no
    x-timestamp header value, Validate fails with the missing-timestamp
    reason provided the x-signature header is present and hex-decodable;
    when the x-signature header is absent it fails with missing-signature,
    and when it is present but not hex it fails with the signature-decode
    reason — the signature presence and decode checks run before the
    timestamp presence check. -/
theorem C7_amended (v : validator) (now : Int) (r : Request) (secret : String)
    (h0 : headerLen r.header ≠ 0)
    (h3 : headerGet r.header "x-timestamp" = "") :
    (headerGet r.header "x-signature" = "" →
      validator.Validate v now r secret = (false, some .missingSignatureHeader)) ∧
    (headerGet r.header "x-signature" ≠ "" →
      hexDecode (headerGet r.header "x-signature") = none →
      validator.Validate v now r secret = (false, some .invalidSignatureFormat)) ∧
    (∀ sig, headerGet r.header "x-signature" ≠ "" →
      hexDecode (headerGet r.header "x-signature") = some sig →
      validator.Validate v now r secret = (false, some .missingTimestampHeader)) := by
  refine ⟨Validate_missingSignature v now r secret h0, ?_, ?_⟩
  · intro h1 h2
    exact Validate_invalidSignatureFormat v now r secret h0 h1 h2
  · intro sig h1 h2
    exact Validate_missingTimestamp v now r secret sig h0 h1 h2 h3

/-- C7 witness: the amended statement at a concrete request whose
    x-signature is present and hex-decodable and whose x-timestamp is
    absent -/
theorem C7_amended_witness :
    (headerGet ([("x-signature", ["deadbeef"])] : Header) "x-signature" = "" →
      validator.Validate (NewValidator 60) 0 ⟨"GET", "/x", [("x-signature", ["deadbeef"])]⟩ "s"
        = (false, some .missingSignatureHeader)) ∧
    (headerGet ([("x-signature", ["deadbeef"])] : Header) "x-signature" ≠ "" →
      hexDecode (headerGet ([("x-signature", ["deadbeef"])] : Header) "x-signature") = none →
      validator.Validate (NewValidator 60) 0 ⟨"GET", "/x", [("x-signature", ["deadbeef"])]⟩ "s"
        = (false, some .invalidSignatureFormat)) ∧
    (∀ sig, headerGet ([("x-signature", ["deadbeef"])] : Header) "x-signature" ≠ "" →
      hexDecode (headerGet ([("x-signature", ["deadbeef"])] : Header) "x-signature")
        = some sig →
      validator.Validate (NewValidator 60) 0 ⟨"GET", "/x", [("x-signature", ["deadbeef"])]⟩ "s"
        = (false, some .missingTimestampHeader)) :=
  C7_amended (NewValidator 60) 0 ⟨"GET", "/x", [("x-signature", ["deadbeef"])]⟩ "s"
    (by decide) (by decide)

/-- C8: Signer postcondition — AddAuthHeaders returns the request with the
    same method and path, appends x-signature set to the hex-encoded
    HMAC-SHA256 of (method, path, ts), x-api-key-id set to the configured
    identifier, and x-timestamp set to ts, where ts is the single RFC 3339
    timestamp string used both inside the HMAC and in the header; every
    other header key is untouched, and the operation is total (no error
    path). -/
theorem C8_signer_postcondition (g : generator) (t : Nat) (r : Request) :
    (generator.AddAuthHeaders g t r).method = r.method ∧
    (generator.AddAuthHeaders g t r).urlPath = r.urlPath ∧
    headerValues (generator.AddAuthHeaders g t r).header "x-signature" =
      headerValues r.header "x-signature" ++
        [GenerateSHA256HMAC g.secret [r.method, r.urlPath, formatRFC3339 t]] ∧
    headerValues (generator.AddAuthHeaders g t r).header "x-api-key-id" =
      headerValues r.header "x-api-key-id" ++ [g.id] ∧
    headerValues (generator.AddAuthHeaders g t r).header "x-timestamp" =
      headerValues r.header "x-timestamp" ++ [formatRFC3339 t] ∧
    (∀ k, k ≠ "x-signature" → k ≠ "x-api-key-id" → k ≠ "x-timestamp" →
      headerValues (generator.AddAuthHeaders g t r).header k = headerValues r.header k) := by
  refine ⟨rfl, rfl, ?_, ?_, ?_, ?_⟩
  · show headerValues (headerAdd (headerAdd (headerAdd r.header "x-signature"
      (GenerateSHA256HMAC g.secret [r.method, r.urlPath, formatRFC3339 t]))
      "x-api-key-id" g.id) "x-timestamp" (formatRFC3339 t)) "x-signature" = _
    rw [headerValues_headerAdd_other _ _ _ _ (by decide),
      headerValues_headerAdd_other _ _ _ _ (by decide),
      headerValues_headerAdd_self]
  · show headerValues (headerAdd (headerAdd (headerAdd r.header "x-signature"
      (GenerateSHA256HMAC g.secret [r.method, r.urlPath, formatRFC3339 t]))
      "x-api-key-id" g.id) "x-timestamp" (formatRFC3339 t)) "x-api-key-id" = _
    rw [headerValues_headerAdd_other _ _ _ _ (by decide),
      headerValues_headerAdd_self,
      headerValues_headerAdd_other _ _ _ _ (by decide)]
  · show headerValues (headerAdd (headerAdd (headerAdd r.header "x-signature"
      (GenerateSHA256HMAC g.secret [r.method, r.urlPath, formatRFC3339 t]))
      "x-api-key-id" g.id) "x-timestamp" (formatRFC3339 t)) "x-timestamp" = _
    rw [headerValues_headerAdd_self,
      headerValues_headerAdd_other _ _ _ _ (by decide),
      headerValues_headerAdd_other _ _ _ _ (by decide)]
  · intro k hk1 hk2 hk3
    show headerValues (headerAdd (headerAdd (headerAdd r.header "x-signature"
      (GenerateSHA256HMAC g.secret [r.method, r.urlPath, formatRFC3339 t]))
      "x-api-key-id" g.id) "x-timestamp" (formatRFC3339 t)) k = _
    rw [headerValues_headerAdd_other _ _ _ _ (Ne.symm hk3),
      headerValues_headerAdd_other _ _ _ _ (Ne.symm hk2),
      headerValues_headerAdd_other _ _ _ _ (Ne.symm hk1)]

/-- C10: Implicit — re-signing does not replace: AddAuthHeaders appends its
    header values while Validate reads only the first value of each header,
    so for every request that already carries auth headers, calling
    AddAuthHeaders again leaves the signature and timestamp the validator
    sees unchanged, and the validation outcome of the re-signed request is
    identical to that of the original. -/
theorem C10_resign_does_not_refresh (g : generator) (t : Nat) (r : Request)
    (v : validator) (now : Int) (secret : String)
    (hsig : headerGet r.header "x-signature" ≠ "")
    (hts : headerGet r.header "x-timestamp" ≠ "") :
    headerGet (generator.AddAuthHeaders g t r).header "x-signature" =
      headerGet r.header "x-signature" ∧
    headerGet (generator.AddAuthHeaders g t r).header "x-timestamp" =
      headerGet r.header "x-timestamp" ∧
    validator.Validate v now (generator.AddAuthHeaders g t r) secret =
      validator.Validate v now r secret := by
  have e1 : headerGet (generator.AddAuthHeaders g t r).header "x-signature" =
      headerGet r.header "x-signature" := by
    show headerGet (headerAdd (headerAdd (headerAdd r.header "x-signature"
      (GenerateSHA256HMAC g.secret [r.method, r.urlPath, formatRFC3339 t]))
      "x-api-key-id" g.id) "x-timestamp" (formatRFC3339 t)) "x-signature" = _
    rw [headerGet_headerAdd_other _ _ _ _ (by decide),
      headerGet_headerAdd_other _ _ _ _ (by decide),
      headerGet_headerAdd_keeps_first _ _ _ hsig]
  have e2 : headerGet (generator.AddAuthHeaders g t r).header "x-timestamp" =
      headerGet r.header "x-timestamp" := by
    show headerGet (headerAdd (headerAdd (headerAdd r.header "x-signature"
      (GenerateSHA256HMAC g.secret [r.method, r.urlPath, formatRFC3339 t]))
      "x-api-key-id" g.id) "x-timestamp" (formatRFC3339 t)) "x-timestamp" = _
    rw [headerGet_headerAdd_keeps_first]
    · exact headerGet_headerAdd_other _ _ _ _ (by decide) |>.trans
        (headerGet_headerAdd_other _ _ _ _ (by decide))
    · rw [headerGet_headerAdd_other _ _ _ _ (by decide),
        headerGet_headerAdd_other _ _ _ _ (by decide)]
      exact hts
  have h0 : headerLen r.header ≠ 0 := header_ne_nil_of_headerGet r.header "x-signature" hsig
  have h0' : headerLen (generator.AddAuthHeaders g t r).header ≠ 0 :=
    headerLen_headerAdd_pos _ _ _
  have em : (generator.AddAuthHeaders g t r).method = r.method := rfl
  have ep : (generator.AddAuthHeaders g t r).urlPath = r.urlPath := rfl
  refine ⟨e1, e2, ?_⟩
  by_cases h1 : headerGet r.header "x-signature" = ""
  · exact absurd h1 hsig
  rcases h2 : hexDecode (headerGet r.header "x-signature") with _ | sig
  · rw [Validate_invalidSignatureFormat v now r secret h0 h1 h2,
      Validate_invalidSignatureFormat v now _ secret h0' (by rw [e1]; exact h1)
        (by rw [e1]; exact h2)]
  rcases h4 : parseRFC3339 (headerGet r.header "x-timestamp") with _ | ts
  · rw [Validate_invalidTimestamp v now r secret sig h0 h1 h2 hts h4,
      Validate_invalidTimestamp v now _ secret sig h0' (by rw [e1]; exact h1)
        (by rw [e1]; exact h2) (by rw [e2]; exact hts) (by rw [e2]; exact h4)]
  by_cases h5 : now ≥ ts + v.validity
  · rw [Validate_expired v now r secret sig ts h0 h1 h2 hts h4 h5,
      Validate_expired v now _ secret sig ts h0' (by rw [e1]; exact h1)
        (by rw [e1]; exact h2) (by rw [e2]; exact hts) (by rw [e2]; exact h4) h5]
  by_cases h6 : hmacEqual sig (generateSHA256HMAC secret
      [r.method, r.urlPath, headerGet r.header "x-timestamp"]) = true
  · rw [Validate_accept v now r secret sig ts h0 h1 h2 hts h4 h5 h6,
      Validate_accept v now _ secret sig ts h0' (by rw [e1]; exact h1)
        (by rw [e1]; exact h2) (by rw [e2]; exact hts) (by rw [e2]; exact h4) h5
        (by rw [em, ep, e2]; exact h6)]
  · rw [Validate_hmacMismatch v now r secret sig ts h0 h1 h2 hts h4 h5 h6,
      Validate_hmacMismatch v now _ secret sig ts h0' (by rw [e1]; exact h1)
        (by rw [e1]; exact h2) (by rw [e2]; exact hts) (by rw [e2]; exact h4) h5
        (by rw [em, ep, e2]; exact h6)]

set_option maxRecDepth 100000 in
/-- C10 witness: re-signing a concrete already-signed request leaves the
    validator-visible signature and timestamp unchanged and the validation
    outcome identical -/
theorem C10_resign_does_not_refresh_witness :
    headerGet (generator.AddAuthHeaders (NewGenerator "id2" "sec2") 1748410900
      ⟨"GET", "/res", [("x-signature", ["deadbeef"]),
        ("x-timestamp", ["2025-05-28T05:38:08Z"])]⟩).header "x-signature" =
      headerGet ([("x-signature", ["deadbeef"]),
        ("x-timestamp", ["2025-05-28T05:38:08Z"])] : Header) "x-signature" ∧
    headerGet (generator.AddAuthHeaders (NewGenerator "id2" "sec2") 1748410900
      ⟨"GET", "/res", [("x-signature", ["deadbeef"]),
        ("x-timestamp", ["2025-05-28T05:38:08Z"])]⟩).header "x-timestamp" =
      headerGet ([("x-signature", ["deadbeef"]),
        ("x-timestamp", ["2025-05-28T05:38:08Z"])] : Header) "x-timestamp" ∧
    validator.Validate (NewValidator 60) 1748410900
      (generator.AddAuthHeaders (NewGenerator "id2" "sec2") 1748410900
        ⟨"GET", "/res", [("x-signature", ["deadbeef"]),
          ("x-timestamp", ["2025-05-28T05:38:08Z"])]⟩) "sec2" =
      validator.Validate (NewValidator 60) 1748410900
        ⟨"GET", "/res", [("x-signature", ["deadbeef"]),
          ("x-timestamp", ["2025-05-28T05:38:08Z"])]⟩ "sec2" :=
  C10_resign_does_not_refresh (NewGenerator "id2" "sec2") 1748410900
    ⟨"GET", "/res", [("x-signature", ["deadbeef"]),
      ("x-timestamp", ["2025-05-28T05:38:08Z"])]⟩
    (NewValidator 60) 1748410900 "sec2" (by decide) (by decide)

end Auth
